import Mathlib

/-!
Shallow embedding of `src/bluetooth_data_sender/bluetooth_data_sender.py`
(the relay broker of the SoftGuar/rpi_code repository).

Modelling conventions:
* A byte is a `Nat` (< 256 where it matters); text is `List Char`.
* Python's `data.decode()` (UTF-8) is modelled on its ASCII fragment:
  a chunk decodes iff every byte is < 128; otherwise decoding raises,
  which the model reports as `none`.  All payloads the claims touch are
  ASCII, and the interesting failure mode (undecodable bytes) is kept.
* The external world (whether `/dev/rfcomm0` is listed by
  `serial.tools.list_ports.comports()`, whether `serial.Serial(...)`
  raises, whether `ser.write(...)` raises) is an explicit `Env` record,
  one per modelled operation.
* Side effects (opening/closing the serial handle, writing bytes,
  closing client sockets, unlinking the unix socket) are recorded in an
  action trace so the theorems can speak about what the code did.
* Exceptions never escape the modelled functions, mirroring the
  `try/except` blocks of the source; a caught exception shows up as a
  `false`/`none` result plus the handler's effects.
-/

/-- A byte, as read from or written to a socket or the serial port. -/
abbrev Byte := Nat

/-- The serial handle object (`serial.Serial`): its one observable
attribute in the source is `is_open`. -/
structure Serial where
  is_open : Bool
deriving DecidableEq, Repr

/-- Outcomes of the external calls an operation may perform:
`rfcomm_available` is the result of `is_rfcomm_available()`,
`open_raises` says whether `serial.Serial(RFCOMM_PORT, timeout=1)`
raises if attempted, `write_raises` whether `ser.write(...)` raises if
attempted. -/
structure Env where
  rfcomm_available : Bool
  open_raises : Bool
  write_raises : Bool
deriving DecidableEq, Repr

/-- Recorded side effects of the broker. -/
inductive Act where
  | openSerial : Act
  | closeSerial : Act
  | writeSerial : List Byte → Act
  | closeClient : Nat → Act
  | unlinkSocket : Act
deriving DecidableEq, Repr

/-- The Python truthiness test `ser is None or not ser.is_open`,
negated: does the global `ser` hold an open handle? -/
def serOpen : Option Serial → Bool
  | none => false
  | some h => h.is_open

/-- Result of `setup_serial_connection`: the returned truth value, the
new value of the global `ser`, and the effects performed.  The source
returns `True`, `False`, or falls off the end (implicit `None`, falsy
at both call sites); the implicit `None` is modelled as `false`. -/
structure SetupResult where
  ok : Bool
  ser : Option Serial
  acts : List Act
deriving DecidableEq, Repr

/-- `setup_serial_connection()` (source lines 22-39): if the RFCOMM
port is listed and `ser` is absent or not open, construct a new
`serial.Serial`; on constructor failure the handler closes `ser` if it
is open (it cannot be, on this path), sets `ser = None` and returns
`False`.  If the port is listed but `ser` is already open, the function
falls through and returns the falsy `None`. -/
def setup_serial_connection (env : Env) (ser : Option Serial) : SetupResult :=
  if env.rfcomm_available then
    if serOpen ser then
      ⟨false, ser, []⟩
    else
      if env.open_raises then
        ⟨false, none, []⟩
      else
        ⟨true, some ⟨true⟩, [Act.openSerial]⟩
  else
    ⟨false, ser, []⟩

/-- Python `bytes.endswith(b'\n')` on the encoded payload. -/
def endsWithNewline (bs : List Byte) : Bool :=
  bs.getLast? == some 10

/-- The source's `if not data_bytes.endswith(b'\n'): data_bytes += b'\n'`. -/
def ensureNewline (bs : List Byte) : List Byte :=
  if endsWithNewline bs then bs else bs ++ [10]

/-- `str.encode()` on the ASCII fragment: each char to its code point. -/
def encodeChars (s : List Char) : List Byte :=
  s.map Char.toNat

/-- Result of `send_data`: returned truth value, new global `ser`,
effects performed. -/
structure SendResult where
  ok : Bool
  ser : Option Serial
  acts : List Act
deriving DecidableEq, Repr

/-- The tail of `send_data` once a connection is ensured: encode, append
the terminator if missing, and `ser.write(...)`.  A raising write is
caught by the enclosing handler, which closes the (open) handle, sets
`ser = None` and returns `False`. -/
def writePhase (env : Env) (ser : Option Serial) (acts0 : List Act)
    (data : List Char) : SendResult :=
  let bs := ensureNewline (encodeChars data)
  if env.write_raises then
    ⟨false, none,
      acts0 ++ (if serOpen ser then [Act.closeSerial] else [])⟩
  else
    ⟨true, ser, acts0 ++ [Act.writeSerial bs]⟩

/-- `send_data(data)` (source lines 46-77).  The only caller passes a
`str`, so `data : List Char`.  If `ser` is absent or not open the
function first calls `setup_serial_connection()` itself and returns
`False` when that fails; otherwise it writes the terminator-completed
encoding of `data`.  Any exception is caught: the handler closes `ser`
if open, sets `ser = None` and returns `False`. -/
def send_data (env : Env) (ser0 : Option Serial) (data : List Char) : SendResult :=
  if serOpen ser0 then
    writePhase env ser0 [] data
  else
    let r := setup_serial_connection env ser0
    if r.ok then
      writePhase env r.ser r.acts data
    else
      ⟨false, r.ser, r.acts⟩

example :
    send_data ⟨true, false, false⟩ none ['h', 'i'] =
      ⟨true, some ⟨true⟩, [Act.openSerial, Act.writeSerial [104, 105, 10]]⟩ := by
  decide

example :
    send_data ⟨false, false, false⟩ none ['h', 'i'] = ⟨false, none, []⟩ := by
  decide

example :
    send_data ⟨true, false, true⟩ (some ⟨true⟩) [] =
      ⟨false, none, [Act.closeSerial]⟩ := by
  decide

/-- `data.decode()` on the ASCII fragment of UTF-8: succeeds iff every
byte is below 128, returning the corresponding characters; `none`
models the `UnicodeDecodeError` the inner `except` of `handle_client`
catches. -/
def decodeBytes (bs : List Byte) : Option (List Char) :=
  if bs.all (fun b => decide (b < 128)) then
    some (bs.map (fun b => Char.ofNat b))
  else
    none

/-- Python's whitespace test restricted to ASCII (`str.isspace()`
characters below 128): tab through carriage return, the information
separators 28-31, and space. -/
def isPySpace (c : Char) : Bool :=
  (9 ≤ c.toNat && c.toNat ≤ 13) || (28 ≤ c.toNat && c.toNat ≤ 31) || c.toNat == 32

/-- `str.strip()`: drop whitespace from both ends, keep the interior. -/
def pyStrip (s : List Char) : List Char :=
  ((s.dropWhile isPySpace).reverse.dropWhile isPySpace).reverse

/-- The reply codes a producer can observe on its socket
(`b'ACK\n'`, `b'NACK\n'`, `f"ERROR: \x7bstr(e)\x7d\n"`); the text of
the `ERROR` reply is the raised exception's rendering, which the model
does not reproduce. -/
inductive Reply where
  | ack : Reply
  | nack : Reply
  | error : Reply
deriving DecidableEq, Repr

/-- One outcome of `client_socket.recv(BUFFER_SIZE)`: either a chunk of
bytes (the empty chunk is the zero-length read of a closed peer) or a
raised socket error. -/
inductive RecvEvent where
  | chunk : List Byte → RecvEvent
  | fail : RecvEvent
deriving DecidableEq, Repr

/-- Zero-length read or raised read: the two ways a producer's
disconnection shows up at `recv`. -/
def isDisconnectEvent : RecvEvent → Bool
  | RecvEvent.chunk [] => true
  | RecvEvent.chunk (_ :: _) => false
  | RecvEvent.fail => true

/-- State of one `handle_client` loop run over a finite list of modelled
`recv` outcomes: replies pushed to the producer, the global `ser` after
the run, the transport effects, and whether the loop has ended (by
zero-length read or raised read).  `terminated = false` means the
modelled events ran out while the session was still blocked in `recv`. -/
structure SessionOut where
  replies : List Reply
  ser : Option Serial
  acts : List Act
  terminated : Bool
deriving DecidableEq, Repr

/-- The `while not exit_flag` loop of `handle_client` (source lines
108-127), with `exit_flag` false throughout: each `recv` chunk is
decoded and stripped as ONE message, handed whole to `send_data`, and
answered with exactly one reply; a decode failure is answered `ERROR`
and the loop continues; a zero-length read or raised read breaks the
loop.  Replies are modelled as always deliverable. -/
def runSession (ser : Option Serial) : List (Env × RecvEvent) → SessionOut
  | [] => ⟨[], ser, [], false⟩
  | (_, RecvEvent.fail) :: _ => ⟨[], ser, [], true⟩
  | (_, RecvEvent.chunk []) :: _ => ⟨[], ser, [], true⟩
  | (env, RecvEvent.chunk (b :: bs)) :: rest =>
    match decodeBytes (b :: bs) with
    | none =>
      let o := runSession ser rest
      ⟨Reply.error :: o.replies, o.ser, o.acts, o.terminated⟩
    | some s =>
      let r := send_data env ser (pyStrip s)
      let o := runSession r.ser rest
      ⟨(if r.ok then Reply.ack else Reply.nack) :: o.replies, o.ser,
        r.acts ++ o.acts, o.terminated⟩

/-- Outcome of a full `handle_client` call: the session run plus the
`finally` block's bookkeeping — how many times `client_socket.close()`
was called and the `clients` registry after the call. -/
structure ClientOut where
  replies : List Reply
  ser : Option Serial
  acts : List Act
  terminated : Bool
  closeCalls : Nat
  registry : List Nat
deriving DecidableEq, Repr

/-- `handle_client(client_socket)` (source lines 103-136) for the client
named `cid`: append `cid` to the `clients` registry, run the loop, and —
once the loop ends — run the `finally` block, which closes the socket
exactly once and removes `cid` from the registry.  If the modelled
events end before the producer disconnects, the session is still live:
no close, still registered. -/
def handle_client (cid : Nat) (registry0 : List Nat) (ser : Option Serial)
    (events : List (Env × RecvEvent)) : ClientOut :=
  let reg := registry0 ++ [cid]
  let o := runSession ser events
  if o.terminated then
    ⟨o.replies, o.ser, o.acts ++ [Act.closeClient cid], true, 1, reg.erase cid⟩
  else
    ⟨o.replies, o.ser, o.acts, false, 0, reg⟩

/-- Result of one iteration body of `rfcomm_monitor`. -/
structure MonitorOut where
  ser : Option Serial
  acts : List Act
deriving DecidableEq, Repr

/-- One iteration of the `rfcomm_monitor()` loop body (source lines
138-149), with `exit_flag` false: only when the port is not listed, or a
handle is present but closed, does it close the handle (if open), reset
`ser = None` and call `setup_serial_connection()`; otherwise it does
nothing until the next 5-second tick. -/
def rfcomm_monitor_step (env : Env) (ser : Option Serial) : MonitorOut :=
  if !env.rfcomm_available || (ser.isSome && !serOpen ser) then
    let closeActs := if serOpen ser then [Act.closeSerial] else []
    let r := setup_serial_connection env none
    ⟨r.ser, closeActs ++ r.acts⟩
  else
    ⟨ser, []⟩

/-- The global `ser` after `n` monitor ticks under a fixed environment. -/
def rfcomm_monitor_iter (env : Env) (ser : Option Serial) : Nat → Option Serial
  | 0 => ser
  | n + 1 => rfcomm_monitor_iter env (rfcomm_monitor_step env ser).ser n

/-- The global state `cleanup()` touches: the serial handle, the client
registry, the stop flag, and whether the unix socket file exists. -/
structure BrokerState where
  ser : Option Serial
  clients : List Nat
  exit_flag : Bool
  socketExists : Bool
deriving DecidableEq, Repr

/-- Result of `cleanup`: the new global state and the effects. -/
structure CleanupOut where
  state : BrokerState
  acts : List Act
deriving DecidableEq, Repr

/-- `cleanup()` (source lines 79-101): set `exit_flag`, close every
registered client socket (each wrapped in `try/except: pass`), empty the
registry, close the serial handle and null it out only if it is open,
and unlink the unix socket path only if it exists. -/
def cleanup (s : BrokerState) : CleanupOut :=
  let clientActs := s.clients.map Act.closeClient
  let serStep : Option Serial × List Act :=
    match s.ser with
    | some h => if h.is_open then (none, [Act.closeSerial]) else (some h, [])
    | none => (none, [])
  let sockActs := if s.socketExists then [Act.unlinkSocket] else []
  ⟨⟨serStep.1, [], true, false⟩, clientActs ++ serStep.2 ++ sockActs⟩

example :
    runSession (some ⟨true⟩) [(⟨true, false, false⟩, RecvEvent.chunk [97, 10, 98, 10])] =
      ⟨[Reply.ack], some ⟨true⟩, [Act.writeSerial [97, 10, 98, 10]], false⟩ := by
  decide

example :
    runSession (some ⟨true⟩) [(⟨true, false, false⟩, RecvEvent.chunk [10])] =
      ⟨[Reply.ack], some ⟨true⟩, [Act.writeSerial [10]], false⟩ := by
  decide

example :
    rfcomm_monitor_step ⟨true, false, false⟩ none = ⟨none, []⟩ := by
  decide

/-- The two execution units that mutate the shared global `ser`: a
client thread inside one `send_data` call, and the monitor thread
inside one loop iteration.  The source guards neither with any lock
(`threading` is imported, but no `Lock` object exists anywhere in the
file), so every interleaving of their statements is schedulable. -/
inductive Tid where
  | client : Tid
  | monitor : Tid
deriving DecidableEq, Repr

/-- Shared-plus-local state for one `send_data` call racing one monitor
iteration.  `sPC` walks the statements of `send_data`: 0 = the
`ser is None or not ser.is_open` check, 1 = the `setup_serial_connection`
call, 2 = the `ser.write(...)` statement (re-reading the global `ser`),
3 = returned.  `mPC`: 0 = monitor body pending, 1 = done.
`observedOpen` is what the check at pc 0 saw; `result` is the value
`send_data` returned, if it has. -/
structure ConcState where
  ser : Option Serial
  sPC : Nat
  mPC : Nat
  observedOpen : Bool
  result : Option Bool
  acts : List Act
deriving DecidableEq, Repr

/-- One scheduled statement of the chosen thread, with the external
world as of that instant.  The client statements are those of
`send_data data` (source lines 46-77), split at the source's own
statement boundaries; CPython interleaves threads between statements,
and no lock in the source prevents any of these switch points.  A
`ser.write` reached when the global `ser` has meanwhile become `None`
or closed raises, landing in `send_data`'s handler. -/
def concStep (data : List Char) (st : ConcState) : Tid × Env → ConcState
  | (Tid.client, env) =>
    if st.sPC == 0 then
      if serOpen st.ser then
        ⟨st.ser, 2, st.mPC, true, st.result, st.acts⟩
      else
        ⟨st.ser, 1, st.mPC, false, st.result, st.acts⟩
    else if st.sPC == 1 then
      let r := setup_serial_connection env st.ser
      if r.ok then
        ⟨r.ser, 2, st.mPC, st.observedOpen, st.result, st.acts ++ r.acts⟩
      else
        ⟨r.ser, 3, st.mPC, st.observedOpen, some false, st.acts ++ r.acts⟩
    else if st.sPC == 2 then
      if serOpen st.ser then
        if env.write_raises then
          ⟨none, 3, st.mPC, st.observedOpen, some false, st.acts ++ [Act.closeSerial]⟩
        else
          ⟨st.ser, 3, st.mPC, st.observedOpen, some true,
            st.acts ++ [Act.writeSerial (ensureNewline (encodeChars data))]⟩
      else
        ⟨none, 3, st.mPC, st.observedOpen, some false, st.acts⟩
    else
      st
  | (Tid.monitor, env) =>
    if st.mPC == 0 then
      let m := rfcomm_monitor_step env st.ser
      ⟨m.ser, st.sPC, 1, st.observedOpen, st.result, st.acts ++ m.acts⟩
    else
      st

/-- Run a schedule: a list of (thread, world-at-that-instant) pairs. -/
def runConc (data : List Char) (st : ConcState) : List (Tid × Env) → ConcState
  | [] => st
  | step :: sched => runConc data (concStep data st step) sched

/-- Scans a schedule for a monitor statement strictly between two client
statements — the interleaving the spec says the mutual-exclusion guard
rules out.  `sawClient`: some client statement has run; `sawMonAfter`:
a monitor statement has run after it. -/
def monitorBetweenAux (sawClient sawMonAfter : Bool) : List (Tid × Env) → Bool
  | [] => false
  | (Tid.client, _) :: rest =>
    if sawClient && sawMonAfter then true else monitorBetweenAux true sawMonAfter rest
  | (Tid.monitor, _) :: rest =>
    monitorBetweenAux sawClient (sawMonAfter || sawClient) rest

/-- Whether a monitor statement runs strictly between two client
statements of the schedule. -/
def monitorBetween (sched : List (Tid × Env)) : Bool :=
  monitorBetweenAux false false sched

/-- Initial state for the race: an open handle, both threads at entry. -/
def concInit : ConcState :=
  ⟨some ⟨true⟩, 0, 0, false, none, []⟩

/-- The concrete schedule: the client's connectedness check runs with
the device present, the monitor's whole iteration runs just as the
device drops, then the client's `ser.write` resumes. -/
def raceSched : List (Tid × Env) :=
  [(Tid.client, ⟨true, false, false⟩),
   (Tid.monitor, ⟨false, false, false⟩),
   (Tid.client, ⟨true, false, false⟩)]

example :
    runConc ['h', 'i'] concInit raceSched =
      ⟨none, 3, 1, true, some false, [Act.closeSerial]⟩ := by
  decide

example : monitorBetween raceSched = true := by decide

/-- The serial handle after a chunk event: unchanged when decoding
raises, otherwise whatever `send_data` left behind.  Used to phrase
how a session run continues past one chunk. -/
def afterChunkSer (env : Env) (ser : Option Serial) (bs : List Byte) : Option Serial :=
  match decodeBytes bs with
  | none => ser
  | some s => (send_data env ser (pyStrip s)).ser

/-- Number of transport writes in an action trace. -/
def writeCount (l : List Act) : Nat :=
  (l.filter (fun a => match a with | Act.writeSerial _ => true | _ => false)).length

theorem head_of_dropWhile_not {α : Type} (p : α → Bool) (l : List α) :
    ∀ a, (l.dropWhile p).head? = some a → p a = false := by
  induction l with
  | nil => intro a h; simp [List.dropWhile] at h
  | cons x xs ih =>
    intro a h
    by_cases hp : p x
    · rw [List.dropWhile_cons_of_pos hp] at h
      exact ih a h
    · rw [List.dropWhile_cons_of_neg hp] at h
      simp at h
      rw [← h]
      exact Bool.of_not_eq_true hp

theorem pyStrip_getLast_not_space (s : List Char) :
    ∀ c, (pyStrip s).getLast? = some c → isPySpace c = false := by
  intro c h
  unfold pyStrip at h
  rw [List.getLast?_reverse] at h
  exact head_of_dropWhile_not isPySpace _ c h

/-- After `str.strip()` the payload cannot end in the terminator, so
`send_data` always appends exactly one newline to it. -/
theorem ensureNewline_pyStrip (s : List Char) :
    ensureNewline (encodeChars (pyStrip s)) = encodeChars (pyStrip s) ++ [10] := by
  unfold ensureNewline
  have hlast : endsWithNewline (encodeChars (pyStrip s)) = false := by
    unfold endsWithNewline encodeChars
    rw [List.getLast?_map]
    cases hl : (pyStrip s).getLast? with
    | none => simp
    | some c =>
      have hc := pyStrip_getLast_not_space s c hl
      simp only [Option.map_some']
      have : c.toNat ≠ 10 := by
        intro hten
        unfold isPySpace at hc
        rw [hten] at hc
        simp at hc
      simpa using this
  rw [hlast]
  simp

/-- Shape of `send_data`'s effects on a successful call: at most a
reconnect, then the one write of the terminator-completed payload. -/
theorem send_data_ok_acts (env : Env) (ser0 : Option Serial) (data : List Char) :
    (send_data env ser0 data).ok = true →
    (send_data env ser0 data).acts =
      (if serOpen ser0 then [] else [Act.openSerial]) ++
        [Act.writeSerial (ensureNewline (encodeChars data))] := by
  unfold send_data writePhase setup_serial_connection
  rcases env with ⟨a, o, w⟩
  cases a <;> cases o <;> cases w <;> cases hs : serOpen ser0 <;> simp [hs]

/-- A failed `send_data` call performs no write. -/
theorem send_data_fail_no_write (env : Env) (ser0 : Option Serial) (data : List Char) :
    (send_data env ser0 data).ok = false →
    ∀ w, Act.writeSerial w ∉ (send_data env ser0 data).acts := by
  unfold send_data writePhase setup_serial_connection
  rcases env with ⟨a, o, w⟩
  cases a <;> cases o <;> cases w <;> cases hs : serOpen ser0 <;> simp [hs]

/-- C1: for every decodable chunk a session forwards, the reply is
`ACK` exactly when `send_data` reports success and `NACK` when it
reports failure — never silence — and the session is not torn down
after either reply: the remaining events are processed unchanged. -/
theorem session_ack_iff_write_ok
    (env : Env) (ser : Option Serial) (b : Byte) (bs : List Byte)
    (s : List Char) (rest : List (Env × RecvEvent))
    (hdec : decodeBytes (b :: bs) = some s) :
    (runSession ser ((env, RecvEvent.chunk (b :: bs)) :: rest)).replies =
      (if (send_data env ser (pyStrip s)).ok then Reply.ack else Reply.nack) ::
        (runSession (send_data env ser (pyStrip s)).ser rest).replies ∧
    (runSession ser ((env, RecvEvent.chunk (b :: bs)) :: rest)).terminated =
      (runSession (send_data env ser (pyStrip s)).ser rest).terminated := by
  simp [runSession, hdec]

/-- Witness for C1: a concrete failed write (device absent, no handle)
is answered `NACK` and the session stays live. -/
theorem session_ack_iff_write_ok_witness :
    (runSession none [(⟨false, false, false⟩, RecvEvent.chunk [120])]).replies =
      (if (send_data ⟨false, false, false⟩ none (pyStrip ['x'])).ok then Reply.ack
        else Reply.nack) ::
        (runSession (send_data ⟨false, false, false⟩ none (pyStrip ['x'])).ser []).replies ∧
    (runSession none [(⟨false, false, false⟩, RecvEvent.chunk [120])]).terminated =
      (runSession (send_data ⟨false, false, false⟩ none (pyStrip ['x'])).ser []).terminated :=
  session_ack_iff_write_ok ⟨false, false, false⟩ none 120 [] ['x'] [] (by decide)

/-- C2 counterexample: a write call made with no handle (`ser = None`)
while the device is listed does NOT fail immediately — `send_data`
itself opens the transport and the write succeeds. -/
theorem send_data_reconnects_itself :
    (send_data ⟨true, false, false⟩ none ['h', 'i']).ok = true ∧
    Act.openSerial ∈ (send_data ⟨true, false, false⟩ none ['h', 'i']).acts := by
  decide

/-- C2 amended: a write call made while the transport is not connected
first attempts to open it inline via `setup_serial_connection`; it
reports failure only when that attempt (or the subsequent write) fails,
and when the device is absent it fails with no effect at all. -/
theorem send_data_disconnected_behavior (env : Env) (data : List Char) :
    (send_data env none data).ok =
      (env.rfcomm_available && !env.open_raises && !env.write_raises) ∧
    (Act.openSerial ∈ (send_data env none data).acts ↔
      env.rfcomm_available = true ∧ env.open_raises = false) ∧
    (env.rfcomm_available = false → send_data env none data = ⟨false, none, []⟩) := by
  unfold send_data writePhase setup_serial_connection
  rcases env with ⟨a, o, w⟩
  cases a <;> cases o <;> cases w <;> simp [serOpen]

/-- Witness for C2 amended: with the device listed and nothing raising,
the disconnected write opens the port and succeeds. -/
theorem send_data_disconnected_behavior_witness :
    (send_data ⟨true, false, false⟩ none ['h', 'i']).ok =
      ((true : Bool) && !(false : Bool) && !(false : Bool)) ∧
    (Act.openSerial ∈ (send_data ⟨true, false, false⟩ none ['h', 'i']).acts ↔
      (true = true ∧ false = false)) ∧
    ((false : Bool) = true → send_data ⟨true, false, false⟩ none ['h', 'i'] = ⟨false, none, []⟩) := by
  simpa using send_data_disconnected_behavior ⟨true, false, false⟩ ['h', 'i']

/-- C3: evaluating the monitor at the failing state.  Once the global
`ser` is `None`, a monitor tick never attempts to open the transport
and never changes the state — whatever the device's availability and
however many ticks pass.  The condition on source line 143 is false
when `ser is None` and the port is listed, and when the port is not
listed the inline `setup_serial_connection()` necessarily fails, so the
monitor alone never returns the transport to connected. -/
theorem monitor_never_reconnects_from_none (env : Env) (n : Nat) :
    rfcomm_monitor_step env none = ⟨none, []⟩ ∧
    rfcomm_monitor_iter env none n = none := by
  constructor
  · rcases env with ⟨a, o, w⟩
    cases a <;> cases o <;> cases w <;> decide
  · induction n with
    | zero => rfl
    | succ k ih =>
      have hstep : (rfcomm_monitor_step env none).ser = none := by
        rcases env with ⟨a, o, w⟩
        cases a <;> cases o <;> cases w <;> decide
      show rfcomm_monitor_iter env (rfcomm_monitor_step env none).ser k = none
      rw [hstep]
      exact ih

/-- C4 counterexample: a chunk carrying two complete lines
(`b"a\nb\n"`) is neither split at the first terminator nor partly
buffered: the session forwards all four bytes as one message (the
embedded terminator included, the claimed one-line write `b"a\n"`
never happens) and sends one single reply for the two request lines. -/
theorem embedded_newline_not_split :
    (runSession (some ⟨true⟩)
        [(⟨true, false, false⟩, RecvEvent.chunk [97, 10, 98, 10])]).acts =
      [Act.writeSerial [97, 10, 98, 10]] ∧
    Act.writeSerial [97, 10] ∉
      (runSession (some ⟨true⟩)
        [(⟨true, false, false⟩, RecvEvent.chunk [97, 10, 98, 10])]).acts ∧
    (runSession (some ⟨true⟩)
        [(⟨true, false, false⟩, RecvEvent.chunk [97, 10, 98, 10])]).replies.length = 1 := by
  decide

/-- C4 amended: the session protocol is chunk-delimited, not
line-delimited — each `recv` chunk is handled as exactly one message
with exactly one reply, and at most one transport write happens per
chunk, carrying the whole stripped chunk (any embedded terminators
kept in place, nothing buffered for later). -/
theorem session_one_reply_per_chunk
    (env : Env) (ser : Option Serial) (b : Byte) (bs : List Byte)
    (rest : List (Env × RecvEvent)) :
    (runSession ser ((env, RecvEvent.chunk (b :: bs)) :: rest)).replies.length =
      1 + (runSession (afterChunkSer env ser (b :: bs)) rest).replies.length ∧
    writeCount (runSession ser [(env, RecvEvent.chunk (b :: bs))]).acts ≤ 1 ∧
    (∀ w, Act.writeSerial w ∈ (runSession ser [(env, RecvEvent.chunk (b :: bs))]).acts →
      ∃ s, decodeBytes (b :: bs) = some s ∧ w = encodeChars (pyStrip s) ++ [10]) := by
  refine ⟨?_, ?_, ?_⟩
  · cases hdec : decodeBytes (b :: bs) with
    | none => simp [runSession, hdec, afterChunkSer, Nat.add_comm]
    | some s => simp [runSession, hdec, afterChunkSer, Nat.add_comm]
  · cases hdec : decodeBytes (b :: bs) with
    | none => simp [runSession, hdec, writeCount]
    | some s =>
      simp only [runSession, hdec]
      cases hok : (send_data env ser (pyStrip s)).ok with
      | false =>
        have hnw := send_data_fail_no_write env ser (pyStrip s) hok
        have hnil : (send_data env ser (pyStrip s)).acts.filter
            (fun a => match a with | Act.writeSerial _ => true | _ => false) = [] := by
          rw [List.filter_eq_nil_iff]
          intro a ha
          cases a with
          | writeSerial w => exact (hnw w ha).elim
          | openSerial => simp
          | closeSerial => simp
          | closeClient n => simp
          | unlinkSocket => simp
        simp [writeCount, hnil]
      | true =>
        have hacts := send_data_ok_acts env ser (pyStrip s) hok
        rw [ensureNewline_pyStrip] at hacts
        simp only [List.append_nil, writeCount, hacts]
        cases serOpen ser <;> simp [List.filter]
  · intro w hw
    cases hdec : decodeBytes (b :: bs) with
    | none => simp [runSession, hdec] at hw
    | some s =>
      refine ⟨s, rfl, ?_⟩
      simp only [runSession, hdec] at hw
      simp only [List.append_nil] at hw
      cases hok : (send_data env ser (pyStrip s)).ok with
      | false =>
        exact ((send_data_fail_no_write env ser (pyStrip s) hok w) hw).elim
      | true =>
        have hacts := send_data_ok_acts env ser (pyStrip s) hok
        rw [ensureNewline_pyStrip] at hacts
        rw [hacts] at hw
        cases hs : serOpen ser <;> rw [hs] at hw <;> simp at hw <;> exact hw

/-- C5 counterexample: an empty line is not answered with the `ERROR`
reply — the code strips it to the empty string, forwards a bare
terminator downstream, and (transport up) replies `ACK`. -/
theorem empty_line_not_error :
    (runSession (some ⟨true⟩) [(⟨true, false, false⟩, RecvEvent.chunk [10])]).replies =
      [Reply.ack] ∧
    Reply.error ∉
      (runSession (some ⟨true⟩) [(⟨true, false, false⟩, RecvEvent.chunk [10])]).replies ∧
    (runSession (some ⟨true⟩) [(⟨true, false, false⟩, RecvEvent.chunk [10])]).acts =
      [Act.writeSerial [10]] := by
  decide

/-- C5 amended: only a chunk whose decoding raises is answered with the
`ERROR:` reply, and that never ends the session — state, effects and
the processing of later events are exactly those of the run without
the bad chunk.  An empty line is instead forwarded as a bare
terminator and acknowledged `ACK`/`NACK` by write outcome. -/
theorem error_reply_policy
    (env : Env) (ser : Option Serial) (b : Byte) (bs : List Byte)
    (rest : List (Env × RecvEvent))
    (hdec : decodeBytes (b :: bs) = none) :
    (runSession ser ((env, RecvEvent.chunk (b :: bs)) :: rest)).replies =
      Reply.error :: (runSession ser rest).replies ∧
    (runSession ser ((env, RecvEvent.chunk (b :: bs)) :: rest)).ser =
      (runSession ser rest).ser ∧
    (runSession ser ((env, RecvEvent.chunk (b :: bs)) :: rest)).acts =
      (runSession ser rest).acts ∧
    (runSession ser ((env, RecvEvent.chunk (b :: bs)) :: rest)).terminated =
      (runSession ser rest).terminated ∧
    (runSession ser ((env, RecvEvent.chunk [10]) :: rest)).replies =
      (if (send_data env ser []).ok then Reply.ack else Reply.nack) ::
        (runSession (send_data env ser []).ser rest).replies := by
  have hten : decodeBytes [10] = some ['\n'] := by decide
  have hstrip : pyStrip ['\n'] = [] := by decide
  refine ⟨?_, ?_, ?_, ?_, ?_⟩ <;>
    simp [runSession, hdec, hten, hstrip]

/-- Witness for C5 amended: the concrete undecodable byte 200 draws the
`ERROR` reply and leaves the session state untouched. -/
theorem error_reply_policy_witness :
    (runSession (some ⟨true⟩) [(⟨true, false, false⟩, RecvEvent.chunk [200])]).replies =
      Reply.error :: (runSession (some ⟨true⟩) []).replies ∧
    (runSession (some ⟨true⟩) [(⟨true, false, false⟩, RecvEvent.chunk [200])]).ser =
      (runSession (some ⟨true⟩) []).ser ∧
    (runSession (some ⟨true⟩) [(⟨true, false, false⟩, RecvEvent.chunk [200])]).acts =
      (runSession (some ⟨true⟩) []).acts ∧
    (runSession (some ⟨true⟩) [(⟨true, false, false⟩, RecvEvent.chunk [200])]).terminated =
      (runSession (some ⟨true⟩) []).terminated ∧
    (runSession (some ⟨true⟩) [(⟨true, false, false⟩, RecvEvent.chunk [10])]).replies =
      (if (send_data ⟨true, false, false⟩ (some ⟨true⟩) []).ok then Reply.ack
        else Reply.nack) ::
        (runSession (send_data ⟨true, false, false⟩ (some ⟨true⟩) []).ser []).replies :=
  error_reply_policy ⟨true, false, false⟩ (some ⟨true⟩) 200 [] [] (by decide)

/-- C6 counterexample: the source holds no lock, so the schedule that
runs the whole monitor iteration between the client's connectedness
check and its `ser.write` is a complete, legal execution — and in it
the monitor closes and nulls the shared handle mid-write, making a
write that observed an open transport fail.  A mutual-exclusion guard
over both operations would make every such schedule impossible. -/
theorem monitor_interleaves_inside_write :
    monitorBetween raceSched = true ∧
    (runConc ['h', 'i'] concInit raceSched).sPC = 3 ∧
    (runConc ['h', 'i'] concInit raceSched).mPC = 1 ∧
    (runConc ['h', 'i'] concInit raceSched).observedOpen = true ∧
    (runConc ['h', 'i'] concInit raceSched).result = some false ∧
    Act.closeSerial ∈ (runConc ['h', 'i'] concInit raceSched).acts ∧
    (∀ w, Act.writeSerial w ∉ (runConc ['h', 'i'] concInit raceSched).acts) := by
  refine ⟨by decide, by decide, by decide, by decide, by decide, by decide, ?_⟩
  have hacts : (runConc ['h', 'i'] concInit raceSched).acts = [Act.closeSerial] := by decide
  intro w
  rw [hacts]
  simp

/-- C6 amended: no mutual-exclusion guard exists in the code; there is
a complete schedule of one client write racing one monitor iteration in
which the monitor's reconnect logic runs strictly between the write's
connection check and the write itself on the same shared handle,
changing the write's outcome. -/
theorem no_guard_interleaving_exists :
    ∃ sched : List (Tid × Env),
      monitorBetween sched = true ∧
      (runConc ['h', 'i'] concInit sched).sPC = 3 ∧
      (runConc ['h', 'i'] concInit sched).mPC = 1 ∧
      (runConc ['h', 'i'] concInit sched).observedOpen = true ∧
      (runConc ['h', 'i'] concInit sched).result = some false := by
  exact ⟨raceSched, by decide, by decide, by decide, by decide, by decide⟩

/-- C7: `cleanup()` is idempotent — a second call after the first has
completed changes nothing, performs no action at all (so nothing is
closed twice), and across both calls the socket file is unlinked
exactly once (and only if it existed) and the serial handle closed at
most once. -/
theorem cleanup_idempotent (s : BrokerState) :
    (cleanup (cleanup s).state).state = (cleanup s).state ∧
    (cleanup (cleanup s).state).acts = [] ∧
    ((cleanup s).acts ++ (cleanup (cleanup s).state).acts).count Act.unlinkSocket =
      (if s.socketExists then 1 else 0) ∧
    ((cleanup s).acts ++ (cleanup (cleanup s).state).acts).count Act.closeSerial ≤ 1 := by
  have hmapU : ∀ l : List Nat, (l.map Act.closeClient).count Act.unlinkSocket = 0 := by
    intro l
    refine List.count_eq_zero.mpr ?_
    simp [List.mem_map]
  have hmapC : ∀ l : List Nat, (l.map Act.closeClient).count Act.closeSerial = 0 := by
    intro l
    refine List.count_eq_zero.mpr ?_
    simp [List.mem_map]
  rcases s with ⟨ser, clients, ef, sock⟩
  cases ser with
  | none =>
    cases sock <;> cases ef <;>
      simp [cleanup, List.count_append, hmapU, hmapC, List.count_cons, List.count_nil]
  | some h =>
    cases h with
    | mk b =>
      cases b <;> cases sock <;> cases ef <;>
        simp [cleanup, List.count_append, hmapU, hmapC, List.count_cons, List.count_nil]

/-- C9 counterexample: the producer's payload `b" hi \n"` is not
forwarded unchanged — `handle_client` strips it before `send_data`, so
the transport receives `b"hi\n"`, and the claimed unchanged write never
occurs. -/
theorem payload_not_forwarded_unchanged :
    (runSession (some ⟨true⟩)
        [(⟨true, false, false⟩, RecvEvent.chunk [32, 104, 105, 32, 10])]).acts =
      [Act.writeSerial [104, 105, 10]] ∧
    Act.writeSerial [32, 104, 105, 32, 10] ∉
      (runSession (some ⟨true⟩)
        [(⟨true, false, false⟩, RecvEvent.chunk [32, 104, 105, 32, 10])]).acts := by
  decide

/-- C9 amended: the bytes a forwarded chunk puts on the transport are
the chunk decoded and `str.strip()`-ed — leading and trailing
whitespace, the terminator included, removed; interior bytes kept —
re-encoded with exactly one newline appended.  In particular a payload
with no surrounding whitespace goes through unchanged up to the
guaranteed terminator. -/
theorem forwarded_bytes_are_stripped_chunk
    (env : Env) (ser : Option Serial) (b : Byte) (bs : List Byte) (s : List Char)
    (hdec : decodeBytes (b :: bs) = some s)
    (hok : (send_data env ser (pyStrip s)).ok = true) :
    (runSession ser [(env, RecvEvent.chunk (b :: bs))]).acts =
      (if serOpen ser then [] else [Act.openSerial]) ++
        [Act.writeSerial (encodeChars (pyStrip s) ++ [10])] := by
  have hacts := send_data_ok_acts env ser (pyStrip s) hok
  rw [ensureNewline_pyStrip] at hacts
  simp [runSession, hdec, hacts]

/-- Witness for C9 amended: the concrete chunk `b" hi \n"` over an open
transport is written as `b"hi\n"`. -/
theorem forwarded_bytes_are_stripped_chunk_witness :
    (runSession (some ⟨true⟩)
        [(⟨true, false, false⟩, RecvEvent.chunk [32, 104, 105, 32, 10])]).acts =
      (if serOpen (some ⟨true⟩) then [] else [Act.openSerial]) ++
        [Act.writeSerial (encodeChars (pyStrip [' ', 'h', 'i', ' ', '\n']) ++ [10])] :=
  forwarded_bytes_are_stripped_chunk ⟨true, false, false⟩ (some ⟨true⟩)
    32 [104, 105, 32, 10] [' ', 'h', 'i', ' ', '\n'] (by decide) (by decide)

/-- C10: `send_data` absorbs every exception into a `False` return.
If the underlying `ser.write` raises (the connection phase having
succeeded), the handler closes the then-open handle and nulls the
global `ser`; if the inline `serial.Serial` constructor raises, `ser`
is likewise left `None` with nothing to close.  Either way the next
call starts from scratch. -/
theorem send_data_absorbs_exceptions (env : Env) (ser0 : Option Serial) (data : List Char) :
    ((serOpen ser0 = true ∨ (setup_serial_connection env ser0).ok = true) →
      env.write_raises = true →
      (send_data env ser0 data).ok = false ∧
      (send_data env ser0 data).ser = none ∧
      Act.closeSerial ∈ (send_data env ser0 data).acts) ∧
    (serOpen ser0 = false → env.rfcomm_available = true → env.open_raises = true →
      (send_data env ser0 data).ok = false ∧
      (send_data env ser0 data).ser = none ∧
      (send_data env ser0 data).acts = []) := by
  rcases env with ⟨a, o, w⟩
  cases a <;> cases o <;> cases w <;> cases hs : serOpen ser0 <;>
    simp_all [send_data, writePhase, setup_serial_connection, serOpen]

/-- Witness for C10: a raising write over an open handle yields
`False`, a closed handle, and `ser = None`. -/
theorem send_data_absorbs_exceptions_witness :
    (send_data ⟨true, false, true⟩ (some ⟨true⟩) ['h', 'i']).ok = false ∧
    (send_data ⟨true, false, true⟩ (some ⟨true⟩) ['h', 'i']).ser = none ∧
    Act.closeSerial ∈ (send_data ⟨true, false, true⟩ (some ⟨true⟩) ['h', 'i']).acts :=
  (send_data_absorbs_exceptions ⟨true, false, true⟩ (some ⟨true⟩) ['h', 'i']).1
    (Or.inl (by decide)) (by decide)

/-- A disconnect event appended to a still-live session run ends the
loop there, adding no reply and no transport effect and leaving the
handle where the previous events left it. -/
theorem runSession_append_disconnect (evs : List (Env × RecvEvent)) :
    ∀ (ser : Option Serial) (env : Env) (ev : RecvEvent),
      isDisconnectEvent ev = true →
      (runSession ser evs).terminated = false →
      runSession ser (evs ++ [(env, ev)]) =
        ⟨(runSession ser evs).replies, (runSession ser evs).ser,
          (runSession ser evs).acts, true⟩ := by
  induction evs with
  | nil =>
    intro ser env ev hev _
    cases ev with
    | fail => simp [runSession]
    | chunk bs =>
      cases bs with
      | nil => simp [runSession]
      | cons b bs' => simp [isDisconnectEvent] at hev
  | cons hd tl ih =>
    intro ser env ev hev hterm
    rcases hd with ⟨env', ev'⟩
    cases ev' with
    | fail => simp [runSession] at hterm
    | chunk bs =>
      cases bs with
      | nil => simp [runSession] at hterm
      | cons b bs' =>
        cases hdec : decodeBytes (b :: bs') with
        | none =>
          have hterm' : (runSession ser tl).terminated = false := by
            simpa [runSession, hdec] using hterm
          have hind := ih ser env ev hev hterm'
          simp [runSession, hdec, hind]
        | some s =>
          have hterm' :
              (runSession (send_data env' ser (pyStrip s)).ser tl).terminated = false := by
            simpa [runSession, hdec] using hterm
          have hind := ih (send_data env' ser (pyStrip s)).ser env ev hev hterm'
          simp [runSession, hdec, hind]

/-- C8: when a live session's next `recv` is a zero-length read or a
raised read, the session sends no further reply, its socket is closed
exactly once, and the client leaves the registry — the registry is
exactly what it was before the connection was accepted. -/
theorem disconnect_closes_once_no_reply
    (cid : Nat) (registry0 : List Nat) (ser : Option Serial)
    (pre : List (Env × RecvEvent)) (env : Env) (ev : RecvEvent)
    (hev : isDisconnectEvent ev = true)
    (hterm : (runSession ser pre).terminated = false)
    (hreg : cid ∉ registry0) :
    (handle_client cid registry0 ser (pre ++ [(env, ev)])).replies =
      (runSession ser pre).replies ∧
    (handle_client cid registry0 ser (pre ++ [(env, ev)])).closeCalls = 1 ∧
    (handle_client cid registry0 ser (pre ++ [(env, ev)])).registry = registry0 ∧
    (handle_client cid registry0 ser (pre ++ [(env, ev)])).terminated = true := by
  have hrun := runSession_append_disconnect pre ser env ev hev hterm
  have herase : (registry0 ++ [cid]).erase cid = registry0 := by
    rw [List.erase_append_right [cid] hreg, List.erase_cons_head]
    simp
  simp [handle_client, hrun, herase]

/-- Witness for C8: client 7 sends one decodable line, then its peer
closes; the session replied only to the line, closed once, and the
registry is empty again. -/
theorem disconnect_closes_once_no_reply_witness :
    (handle_client 7 [] (some ⟨true⟩)
        ([(⟨true, false, false⟩, RecvEvent.chunk [104, 105, 10])] ++
          [(⟨true, false, false⟩, RecvEvent.chunk [])])).replies =
      (runSession (some ⟨true⟩)
        [(⟨true, false, false⟩, RecvEvent.chunk [104, 105, 10])]).replies ∧
    (handle_client 7 [] (some ⟨true⟩)
        ([(⟨true, false, false⟩, RecvEvent.chunk [104, 105, 10])] ++
          [(⟨true, false, false⟩, RecvEvent.chunk [])])).closeCalls = 1 ∧
    (handle_client 7 [] (some ⟨true⟩)
        ([(⟨true, false, false⟩, RecvEvent.chunk [104, 105, 10])] ++
          [(⟨true, false, false⟩, RecvEvent.chunk [])])).registry = [] ∧
    (handle_client 7 [] (some ⟨true⟩)
        ([(⟨true, false, false⟩, RecvEvent.chunk [104, 105, 10])] ++
          [(⟨true, false, false⟩, RecvEvent.chunk [])])).terminated = true :=
  disconnect_closes_once_no_reply 7 [] (some ⟨true⟩)
    [(⟨true, false, false⟩, RecvEvent.chunk [104, 105, 10])]
    ⟨true, false, false⟩ (RecvEvent.chunk []) (by decide) (by decide) (by simp)
